import Mathlib

/-!
# Verification of the LoamLabs spoke-length calculation engine

Shallow embedding of the spoke-length calculator and its orchestrating
calculation engines, together with proofs checking the natural-language
specification against the code.

The repository contains several revisions of the engine:
* `_lib/calculator.js` (src/unnamed/part_006) — the shared calculation
  library (`calculateSpokeLength`, `calculateBerdFinalLength`,
  `applyRounding`, `calculateElongation`, `isLacingPossible`), imported by
  the later engine revisions;
* src/unnamed/part_001 and src/unnamed/part_002 — two revisions of
  `runCalculationEngine` built on that library;
* src/api/index.js — an earlier self-contained revision with its own
  `calculateSpokeLength` (which applies `rimSpokeHoleOffset` internally and
  throws on a missing spoke-hole diameter) and its own `getMeta`.

JavaScript numbers are idealised as real numbers (`ℝ`).  Where a `NaN`
value is observable (the api/index.js revision, whose `getMeta` does not
guard `parseFloat` failures), numbers are modelled as `Option ℝ` with
`none` playing the role of `NaN`/`undefined`.  `parseFloat` itself is an
external JavaScript primitive and is abstracted as a parameter
`pf : String → Option ℝ` (`none` = the parse produced `NaN`).
String interpolation into alert/error messages whose interpolands are
numbers is modelled by structured values carrying the interpolated data.
-/

open scoped Classical

noncomputable section

/-! ## `_lib/calculator.js` (src/unnamed/part_006) -/

/-- Parameter record for `calculateSpokeLength` in `_lib/calculator.js`. -/
structure SpokeParams where
  isLeft : Bool
  hubType : String
  baseCrossPattern : ℝ
  spokeCount : ℝ
  finalErd : ℝ
  hubFlangeDiameter : ℝ
  flangeOffset : ℝ
  spOffset : ℝ
  hubSpokeHoleDiameter : ℝ

/-- `calculateSpokeLength` from `_lib/calculator.js` (src/unnamed/part_006,
lines 50–73).  `finalZOffset` is the unmodified `flangeOffset`;
`rimSpokeHoleOffset` does not appear in this revision. -/
def calculateSpokeLength (p : SpokeParams) : ℝ :=
  let effectiveCrossPattern :=
    if p.hubType = "Straight Pull" ∧ 0 < p.baseCrossPattern then
      p.baseCrossPattern + 0.5
    else p.baseCrossPattern
  let angle := (2 * Real.pi * effectiveCrossPattern) / (p.spokeCount / 2)
  let finalZOffset := p.flangeOffset
  let term1 := finalZOffset ^ 2
  let term2 := (p.hubFlangeDiameter / 2) ^ 2
  let term3 := (p.finalErd / 2) ^ 2
  let term4 := 2 * (p.hubFlangeDiameter / 2) * (p.finalErd / 2) * Real.cos angle
  let geometricLength := Real.sqrt (term1 + term2 + term3 - term4)
  if p.hubType = "Classic Flange" then
    geometricLength - p.hubSpokeHoleDiameter / 2
  else if p.hubType = "Straight Pull" then
    geometricLength + p.spOffset
  else
    geometricLength

/-- The `{ flangeL, flangeR, metalLengthL, metalLengthR }` context passed to
`calculateBerdFinalLength`. -/
structure BerdContext where
  flangeL : ℝ
  flangeR : ℝ
  metalLengthL : ℝ
  metalLengthR : ℝ

/-- `calculateBerdFinalLength` from `_lib/calculator.js` (src/unnamed/part_006,
lines 8–30). -/
def calculateBerdFinalLength (metalLength : ℝ) (hubType : String) (isLeft : Bool)
    (ctx : BerdContext) : ℝ :=
  let hubConstant : ℝ :=
    if hubType = "Classic Flange" then 9.0
    else if hubType = "Straight Pull" then 7.5
    else if hubType = "Hook Flange" then 2.0
    else 0.0
  let angleLeft := ctx.flangeL / ctx.metalLengthL
  let angleRight := ctx.flangeR / ctx.metalLengthR
  let tensionPercent : ℝ :=
    if angleLeft < angleRight then (if isLeft then 100 else angleLeft / angleRight * 100)
    else (if isLeft then angleRight / angleLeft * 100 else 100)
  let L : ℝ := 2.5
  let tensionComp := 0.000444 * tensionPercent ^ 2 - 0.1231 * tensionPercent + L
  let lengthAdder : ℝ :=
    if metalLength < 200.0 then 4.0
    else if metalLength < 220.0 then 3.0
    else if metalLength < 240.0 then 2.0
    else if metalLength < 260.0 then 1.0
    else 0.0
  metalLength + hubConstant + tensionComp + lengthAdder

/-- `applyRounding` from `_lib/calculator.js` (src/unnamed/part_006,
lines 34–39).  `Math.round` rounds half towards `+∞`, which is Mathlib's
`round`; `Math.ceil (length / 2) * 2` is `⌈length / 2⌉ * 2`. -/
def applyRounding (length : ℝ) (vendor : String) : ℤ :=
  if vendor = "Berd" then round length - 2
  else ⌈length / 2⌉ * 2

/-- `calculateElongation` from `_lib/calculator.js` (src/unnamed/part_006,
lines 41–48).  The JavaScript guard `!crossSectionalArea ||
crossSectionalArea === 0` short-circuits on the falsy value `0`. -/
def calculateElongation (spokeLength tensionKgf crossSectionalArea : ℝ) : ℝ :=
  if crossSectionalArea = 0 then 0
  else
    let tensionN := tensionKgf * 9.80665
    let modulusPa := (210 : ℝ) * 1e9
    let elongationMeters :=
      (tensionN * (spokeLength / 1000)) / (modulusPa * (crossSectionalArea / 1e6))
    elongationMeters * 1000

/-- `isLacingPossible` from `_lib/calculator.js` (src/unnamed/part_006,
lines 75–80): `crossPattern === 0` returns `true` outright, otherwise the
lacing angle must be under 90 degrees. -/
def isLacingPossible (spokeCount crossPattern : ℝ) : Prop :=
  crossPattern = 0 ∨ crossPattern * (360 / (spokeCount / 2)) < 90

/-! ## Claims C1–C4 (calculator-level) -/

/-- **C1.** For every call to the geometry solver `calculateSpokeLength` with
even `spokeCount > 0`, positive `finalErd` and positive `hubFlangeDiameter`,
the returned length equals
`sqrt(axialOffset² + (hubFlangeDiameter/2)² + (finalErd/2)²
  − 2·(hubFlangeDiameter/2)·(finalErd/2)·cos(2π·effectiveCross/(spokeCount/2)))`
with `effectiveCross = baseCrossPattern + 0.5` when the hub type is
Straight Pull and `baseCrossPattern > 0`, and `effectiveCross =
baseCrossPattern` otherwise; the result is then corrected per hub type:
minus `hubSpokeHoleDiameter/2` for Classic Flange, plus `spOffset` for
Straight Pull, and left unchanged for Hook Flange. -/
theorem calculateSpokeLength_matches_law_of_cosines (p : SpokeParams) (k : ℕ)
    (hk : 0 < k) (hsc : p.spokeCount = 2 * k) (herd : 0 < p.finalErd)
    (hfd : 0 < p.hubFlangeDiameter) :
    (p.hubType = "Classic Flange" →
      calculateSpokeLength p =
        Real.sqrt (p.flangeOffset ^ 2 + (p.hubFlangeDiameter / 2) ^ 2 +
            (p.finalErd / 2) ^ 2 -
            2 * (p.hubFlangeDiameter / 2) * (p.finalErd / 2) *
              Real.cos (2 * Real.pi * p.baseCrossPattern / (p.spokeCount / 2)))
          - p.hubSpokeHoleDiameter / 2) ∧
    (p.hubType = "Straight Pull" →
      (0 < p.baseCrossPattern →
        calculateSpokeLength p =
          Real.sqrt (p.flangeOffset ^ 2 + (p.hubFlangeDiameter / 2) ^ 2 +
              (p.finalErd / 2) ^ 2 -
              2 * (p.hubFlangeDiameter / 2) * (p.finalErd / 2) *
                Real.cos (2 * Real.pi * (p.baseCrossPattern + 0.5) /
                  (p.spokeCount / 2)))
            + p.spOffset) ∧
      (¬ 0 < p.baseCrossPattern →
        calculateSpokeLength p =
          Real.sqrt (p.flangeOffset ^ 2 + (p.hubFlangeDiameter / 2) ^ 2 +
              (p.finalErd / 2) ^ 2 -
              2 * (p.hubFlangeDiameter / 2) * (p.finalErd / 2) *
                Real.cos (2 * Real.pi * p.baseCrossPattern / (p.spokeCount / 2)))
            + p.spOffset)) ∧
    (p.hubType = "Hook Flange" →
      calculateSpokeLength p =
        Real.sqrt (p.flangeOffset ^ 2 + (p.hubFlangeDiameter / 2) ^ 2 +
            (p.finalErd / 2) ^ 2 -
            2 * (p.hubFlangeDiameter / 2) * (p.finalErd / 2) *
              Real.cos (2 * Real.pi * p.baseCrossPattern / (p.spokeCount / 2)))) := by
  refine ⟨fun h => ?_, fun h => ⟨fun hb => ?_, fun hb => ?_⟩, fun h => ?_⟩
  · simp [calculateSpokeLength, h]
  · simp [calculateSpokeLength, h, hb]
  · simp [calculateSpokeLength, h, hb]
  · simp [calculateSpokeLength, h]

/-- Witness for C1 at a concrete Straight Pull input. -/
theorem calculateSpokeLength_matches_law_of_cosines_witness :
    0 < 16 ∧ (SpokeParams.mk true "Straight Pull" 3 32 600 58 35 2 0).spokeCount = 2 * (16 : ℕ) ∧
      (0:ℝ) < (SpokeParams.mk true "Straight Pull" 3 32 600 58 35 2 0).finalErd ∧
      (0:ℝ) < (SpokeParams.mk true "Straight Pull" 3 32 600 58 35 2 0).hubFlangeDiameter ∧
      ((SpokeParams.mk true "Straight Pull" 3 32 600 58 35 2 0).hubType = "Classic Flange" →
        calculateSpokeLength (SpokeParams.mk true "Straight Pull" 3 32 600 58 35 2 0) =
          Real.sqrt ((35:ℝ) ^ 2 + ((58:ℝ) / 2) ^ 2 + ((600:ℝ) / 2) ^ 2 -
              2 * ((58:ℝ) / 2) * ((600:ℝ) / 2) *
                Real.cos (2 * Real.pi * 3 / ((32:ℝ) / 2))) - (0:ℝ) / 2) := by
  refine ⟨by norm_num, by norm_num, by norm_num, by norm_num, ?_⟩
  exact (calculateSpokeLength_matches_law_of_cosines
    (SpokeParams.mk true "Straight Pull" 3 32 600 58 35 2 0) 16
    (by norm_num) (by norm_num) (by norm_num) (by norm_num)).1

/-- **C2.** For every ElastomerCored (Berd) side calculation, the
vendor-adjusted final length equals
`metalLength + hubConstant + tensionComp + lengthAdder`, where `hubConstant`
is 9.0 for Classic Flange, 7.5 for Straight Pull, 2.0 for Hook Flange and 0
for anything else; `tensionComp = 0.000444·p² − 0.1231·p + 2.5` with `p = 100`
for the side whose `flangeOffset/metalLength` ratio is the smaller of the two
sides and `p = (smallerRatio/largerRatio)·100` for the other side; and
`lengthAdder` is 4 below 200 mm, 3 below 220 mm, 2 below 240 mm, 1 below
260 mm and 0 otherwise.  (Stated for the generic case in which the two
ratios differ, so that "the smaller of the two" is well defined.) -/
theorem calculateBerdFinalLength_decomposition (metalLength : ℝ) (hubType : String)
    (isLeft : Bool) (ctx : BerdContext)
    (hne : ctx.flangeL / ctx.metalLengthL ≠ ctx.flangeR / ctx.metalLengthR) :
    calculateBerdFinalLength metalLength hubType isLeft ctx =
      metalLength
      + (if hubType = "Classic Flange" then 9.0
         else if hubType = "Straight Pull" then 7.5
         else if hubType = "Hook Flange" then 2.0 else 0)
      + (let rL := ctx.flangeL / ctx.metalLengthL
         let rR := ctx.flangeR / ctx.metalLengthR
         let p : ℝ :=
           if (if isLeft then rL else rR) = min rL rR then 100
           else min rL rR / max rL rR * 100
         0.000444 * p ^ 2 - 0.1231 * p + 2.5)
      + (if metalLength < 200 then 4
         else if metalLength < 220 then 3
         else if metalLength < 240 then 2
         else if metalLength < 260 then 1 else 0) := by
  have key :
      (if ctx.flangeL / ctx.metalLengthL < ctx.flangeR / ctx.metalLengthR then
        (if isLeft then (100:ℝ)
         else ctx.flangeL / ctx.metalLengthL / (ctx.flangeR / ctx.metalLengthR) * 100)
       else
        (if isLeft then ctx.flangeR / ctx.metalLengthR / (ctx.flangeL / ctx.metalLengthL) * 100
         else 100)) =
      (if (if isLeft then ctx.flangeL / ctx.metalLengthL else ctx.flangeR / ctx.metalLengthR) =
          min (ctx.flangeL / ctx.metalLengthL) (ctx.flangeR / ctx.metalLengthR) then (100:ℝ)
       else min (ctx.flangeL / ctx.metalLengthL) (ctx.flangeR / ctx.metalLengthR) /
            max (ctx.flangeL / ctx.metalLengthL) (ctx.flangeR / ctx.metalLengthR) * 100) := by
    rcases lt_or_gt_of_ne hne with hlt | hgt
    · rw [if_pos hlt, min_eq_left hlt.le, max_eq_right hlt.le]
      cases isLeft
      · simp [hlt.ne']
      · simp
    · rw [if_neg (not_lt.mpr hgt.le), min_eq_right hgt.le, max_eq_left hgt.le]
      cases isLeft
      · simp
      · simp [hgt.ne']
  simp only [calculateBerdFinalLength]
  rw [key]
  norm_num

/-- Witness for C2 at a concrete input. -/
theorem calculateBerdFinalLength_decomposition_witness :
    ((35:ℝ) / 300 ≠ (21:ℝ) / 299) ∧
      calculateBerdFinalLength 300 "Classic Flange" true (BerdContext.mk 35 21 300 299) =
        300
        + (if ("Classic Flange":String) = "Classic Flange" then 9.0
           else if ("Classic Flange":String) = "Straight Pull" then 7.5
           else if ("Classic Flange":String) = "Hook Flange" then 2.0 else 0)
        + (let rL := (35:ℝ) / 300
           let rR := (21:ℝ) / 299
           let p : ℝ :=
             if (if (true:Bool) then rL else rR) = min rL rR then 100
             else min rL rR / max rL rR * 100
           0.000444 * p ^ 2 - 0.1231 * p + 2.5)
        + (if (300:ℝ) < 200 then 4
           else if (300:ℝ) < 220 then 3
           else if (300:ℝ) < 240 then 2
           else if (300:ℝ) < 260 then 1 else 0) := by
  refine ⟨by norm_num, ?_⟩
  exact calculateBerdFinalLength_decomposition 300 "Classic Flange" true
    (BerdContext.mk 35 21 300 299) (by norm_num)

/-- **C3.** `applyRounding` returns round-to-nearest minus 2 for the
ElastomerCored vendor `"Berd"`, and the smallest even integer greater than or
equal to the length for every other vendor; consequently it is idempotent on
already-even integers for a steel-like vendor. -/
theorem applyRounding_spec (l : ℝ) (v : String) (n : ℤ) (hn : Even n) :
    (v = "Berd" → applyRounding l v = round l - 2) ∧
    (v ≠ "Berd" → IsLeast {m : ℤ | Even m ∧ l ≤ (m : ℝ)} (applyRounding l v)) ∧
    applyRounding (n : ℝ) "Steel" = n := by
  refine ⟨fun h => by simp [applyRounding, h], fun h => ?_, ?_⟩
  · have hv : applyRounding l v = ⌈l / 2⌉ * 2 := by simp [applyRounding, h]
    rw [hv]
    constructor
    · refine ⟨⟨⌈l / 2⌉, by ring⟩, ?_⟩
      have h1 : l / 2 ≤ (⌈l / 2⌉ : ℝ) := Int.le_ceil _
      push_cast
      linarith
    · rintro m ⟨⟨t, ht⟩, hm⟩
      have hm2 : l / 2 ≤ (t : ℝ) := by
        rw [ht] at hm
        push_cast at hm
        linarith
      have := Int.ceil_le.mpr hm2
      omega
  · obtain ⟨t, ht⟩ := hn
    have : ((n : ℝ) / 2) = (t : ℝ) := by
      rw [ht]; push_cast; ring
    simp [applyRounding, this, ht]
    ring

/-- Witness for C3 at concrete inputs. -/
theorem applyRounding_spec_witness :
    ("Steel" : String) ≠ "Berd" ∧ Even (4:ℤ) ∧
      IsLeast {m : ℤ | Even m ∧ (5:ℝ) ≤ (m : ℝ)} (applyRounding 5 "Steel") := by
  refine ⟨by decide, by decide, ?_⟩
  exact (applyRounding_spec 5 "Steel" 4 (by decide)).2.1 (by decide)

/-- **C4.** For every positive even spoke count and natural cross number,
`isLacingPossible` holds iff `cross · (360/(spokeCount/2)) < 90`; in
particular radial lacing (`cross = 0`) is always possible, 3-cross on 32
holes is possible (67.5°), and 5-cross on 32 holes is not (112.5°). -/
theorem isLacingPossible_spec (n c : ℕ) (hn : 0 < n) (sc : ℝ) :
    (isLacingPossible (2 * n : ℝ) (c : ℝ) ↔
      (c : ℝ) * (360 / ((2 * n : ℝ) / 2)) < 90) ∧
    isLacingPossible sc 0 ∧
    isLacingPossible 32 3 ∧ ¬ isLacingPossible 32 5 := by
  refine ⟨⟨fun h => ?_, fun h => Or.inr h⟩, Or.inl rfl, Or.inr (by norm_num), ?_⟩
  · rcases h with h | h
    · have hc : (c : ℝ) = 0 := h
      rw [hc]
      have hpos : (0:ℝ) < 360 / ((2 * n : ℝ) / 2) := by positivity
      norm_num
    · exact h
  · rintro (h | h)
    · norm_num at h
    · norm_num at h

/-- Witness for C4 at concrete inputs. -/
theorem isLacingPossible_spec_witness :
    0 < 16 ∧
      ((isLacingPossible (2 * (16:ℕ) : ℝ) ((3:ℕ) : ℝ) ↔
        ((3:ℕ) : ℝ) * (360 / ((2 * (16:ℕ) : ℝ) / 2)) < 90) ∧
      isLacingPossible 28 0 ∧
      isLacingPossible 32 3 ∧ ¬ isLacingPossible 32 5) := by
  exact ⟨by norm_num, isLacingPossible_spec 16 3 (by norm_num) 28⟩

/-! ## Metadata resolver (`getMeta`) -/

/-- A component-metadata store: maps a component id (variant or product id)
to its metafield dictionary, mirroring the `componentData` map consumed by
`runCalculationEngine`. -/
def ComponentData : Type := String → Option (String → Option String)

/-- The shared lookup skeleton of every `getMeta` revision
(src/unnamed/part_001 lines 655–665, src/unnamed/part_002 lines 421–431,
src/api/index.js lines 103–111): `componentData.get(id) || {}` is
`(data id).getD (fun _ => none)`, `variantMeta[key] ?? productMeta[key]` is
`<|>`, and the `value === undefined || value === null || value === ''` test
collapses to `none` here (both branches of the source then return the same
absent-result). -/
def metaLookup (data : ComponentData) (variantId productId key : String) :
    Option String :=
  let variantMeta := (data variantId).getD (fun _ => none)
  let productMeta := (data productId).getD (fun _ => none)
  match variantMeta key <|> productMeta key with
  | none => none
  | some v => if v = "" then none else some v

/-- Numeric branch (`isNumber = true`) of `getMeta` in src/unnamed/part_001
(lines 655–665; src/unnamed/part_002 is identical): absent/null/empty yields
`defaultValue`, otherwise `parseFloat` — abstracted as `pf`, with `none`
modelling `NaN` — and `isNaN(num) ? defaultValue : num` is
`(pf v).getD defaultValue`. -/
def getMetaNum (pf : String → Option ℝ) (data : ComponentData)
    (variantId productId key : String) (defaultValue : ℝ) : ℝ :=
  match metaLookup data variantId productId key with
  | none => defaultValue
  | some v => (pf v).getD defaultValue

/-- String branch (`isNumber = false`) of `getMeta`: absent/null/empty
yields `null` (modelled `none`), otherwise the stored string. -/
def getMetaStr (data : ComponentData) (variantId productId key : String) :
    Option String :=
  metaLookup data variantId productId key

/-- Numeric branch of `getMeta` in src/api/index.js (lines 103–111), which
returns `parseFloat(value)` with no `isNaN` guard; `none` models `NaN`. -/
def getMetaApiNum (pf : String → Option ℝ) (data : ComponentData)
    (variantId productId key : String) (defaultValue : ℝ) : Option ℝ :=
  match metaLookup data variantId productId key with
  | none => some defaultValue
  | some v => pf v

/-- Store for the C8 counterexample: variant id `"v8"` holds the
non-numeric string `"abc"` under key `"shd"`. -/
def c8Store : ComponentData :=
  fun id =>
    if id = "v8" then some (fun k => if k = "shd" then some "abc" else none)
    else none

/-- **C8 counterexample.**  The claim says a stored string that does not
parse as a number yields the caller-supplied default for every resolver
revision.  The src/api/index.js revision instead returns `parseFloat`'s
`NaN` (here `none`): with default 5 and the non-numeric stored string
`"abc"` it does not return 5. -/
theorem getMetaApiNum_nonNumeric_not_default :
    getMetaApiNum (fun _ => none) c8Store "v8" "p8" "shd" 5 = none ∧
      (none : Option ℝ) ≠ some (5 : ℝ) := by
  exact ⟨rfl, by simp⟩

/-- **C8 (amended).**  For every metadata lookup: a variant-scoped value
wins over a product-scoped one; a value only in product scope is used; when
neither scope holds the key, numeric lookups return the caller-supplied
default and string lookups return a null-equivalent; a stored string that
does not parse as a number yields the default in the
part_001/part_002 resolver, while the src/api/index.js resolver yields
`NaN` (`none`) — and no resolver ever throws (all are total functions). -/
theorem getMeta_resolution_order (pf : String → Option ℝ) (data : ComponentData)
    (vid pid key : String) (d : ℝ) :
    (∀ v, ((data vid).getD (fun _ => none)) key = some v → v ≠ "" →
      getMetaNum pf data vid pid key d = (pf v).getD d ∧
      getMetaStr data vid pid key = some v ∧
      getMetaApiNum pf data vid pid key d = pf v) ∧
    (((data vid).getD (fun _ => none)) key = none →
      ∀ v, ((data pid).getD (fun _ => none)) key = some v → v ≠ "" →
        getMetaNum pf data vid pid key d = (pf v).getD d ∧
        getMetaStr data vid pid key = some v ∧
        getMetaApiNum pf data vid pid key d = pf v) ∧
    (((data vid).getD (fun _ => none)) key = none →
      ((data pid).getD (fun _ => none)) key = none →
        getMetaNum pf data vid pid key d = d ∧
        getMetaStr data vid pid key = none ∧
        getMetaApiNum pf data vid pid key d = some d) ∧
    (∀ v, metaLookup data vid pid key = some v → pf v = none →
      getMetaNum pf data vid pid key d = d ∧
      getMetaApiNum pf data vid pid key d = none) := by
  refine ⟨fun v hv hne => ?_, fun hv v hp hne => ?_, fun hv hp => ?_, fun v hl hpf => ?_⟩
  · have hm : metaLookup data vid pid key = some v := by
      simp [metaLookup, hv, hne]
    exact ⟨by simp [getMetaNum, hm], by simp [getMetaStr, hm], by simp [getMetaApiNum, hm]⟩
  · have hm : metaLookup data vid pid key = some v := by
      simp [metaLookup, hv, hp, hne]
    exact ⟨by simp [getMetaNum, hm], by simp [getMetaStr, hm], by simp [getMetaApiNum, hm]⟩
  · have hm : metaLookup data vid pid key = none := by
      simp [metaLookup, hv, hp]
    exact ⟨by simp [getMetaNum, hm], by simp [getMetaStr, hm], by simp [getMetaApiNum, hm]⟩
  · exact ⟨by simp [getMetaNum, hl, hpf], by simp [getMetaApiNum, hl, hpf]⟩

/-- Parse function for the C8 witness: only `"3"` parses (to 3). -/
def c8pf : String → Option ℝ := fun s => if s = "3" then some 3 else none

/-- Store for the C8 witness: variant `"vw8"` holds `"3"` under `"k"`,
product `"pw8"` holds `"9"` under the same key (shadowed). -/
def c8wStore : ComponentData :=
  fun id =>
    if id = "vw8" then some (fun k => if k = "k" then some "3" else none)
    else if id = "pw8" then some (fun k => if k = "k" then some "9" else none)
    else none

/-- Witness for the amended C8: the variant-scoped `"3"` shadows the
product-scoped `"9"` and parses to 3. -/
theorem getMeta_resolution_order_witness :
    ((c8wStore "vw8").getD (fun _ => none)) "k" = some "3" ∧ ("3" : String) ≠ "" ∧
      getMetaNum c8pf c8wStore "vw8" "pw8" "k" 7 = (c8pf "3").getD 7 ∧
      getMetaStr c8wStore "vw8" "pw8" "k" = some "3" ∧
      getMetaApiNum c8pf c8wStore "vw8" "pw8" "k" 7 = c8pf "3" := by
  refine ⟨by decide, by decide, ?_⟩
  exact (getMeta_resolution_order c8pf c8wStore "vw8" "pw8" "k" 7).1 "3"
    (by decide) (by decide)

/-! ## Build recipes and components -/

/-- A component reference from the parsed build recipe (`rim`, `hub`,
`spokes`): the fields the calculation engines read. -/
structure Component where
  variantId : String
  productId : String
  title : String
  vendor : String
  selectedOptions : List (String × String)

/-- A parsed build recipe.  `specSpokeCount position` models
`parseInt(buildRecipe.specs[position + 'SpokeCount']?.replace('h', ''), 10)`
with `none` for a missing spec or a NaN parse. -/
structure BuildRecipe where
  buildType : String
  components : String → Option Component
  specSpokeCount : String → Option ℕ

/-- `parseInt` applied to an already-numeric JavaScript value truncates it
toward zero (src/unnamed/part_001 lines 690–691). -/
def jsTrunc (x : ℝ) : ℤ := if 0 ≤ x then ⌊x⌋ else ⌈x⌉

/-! ## `runCalculationEngine`, revision src/unnamed/part_001 -/

/-- Structured stand-ins for the interpolated alert strings of
src/unnamed/part_001: `"BERD calculation applied."` (line 709) and
`"Interference for ${initial}-cross...Fell back to ${final}-cross."`
(line 733). -/
inductive Alert1
  | berdApplied
  | interference (initial fellBackTo : ℝ)

/-- The `crossPattern` field of a wheel result: `{left, right}` on the Berd
path, a scalar on the steel path. -/
inductive CrossPat
  | pair (left right : ℝ)
  | scalar (c : ℝ)

/-- One side's `{geo, stretch?, rounded}` lengths.  `geo` is kept as the
raw real number (the source formats it with `toFixed(2)` for display). -/
structure Side1 where
  geo : ℝ
  stretch : Option ℝ
  rounded : ℤ

/-- The fields of a successful wheel result in src/unnamed/part_001
(`calculationSuccessful: true`); `finalErd` and `targetTension` echo the
`inputs` block. -/
structure Success1 where
  crossPattern : CrossPat
  alert : Option Alert1
  left : Side1
  right : Side1
  finalErd : ℝ
  targetTension : ℝ

/-- A wheel result: `{calculationSuccessful: false, error}` or a success. -/
inductive Result1
  | failure (error : String)
  | success (s : Success1)

/-- The cross-pattern fallback loop of src/unnamed/part_001 (lines 730–735):
`while (!isLacingPossible(spokeCount, finalCrossPattern) && finalCrossPattern > 0)
 { fallbackAlert = ...; finalCrossPattern--; }`. -/
def fallbackLoop (spokeCount : ℕ) (initial cross : ℝ) (alert : Option Alert1) :
    ℝ × Option Alert1 :=
  if h : ¬ isLacingPossible (spokeCount : ℝ) cross ∧ 0 < cross then
    fallbackLoop spokeCount initial (cross - 1)
      (some (Alert1.interference initial (cross - 1)))
  else (cross, alert)
termination_by ⌈cross⌉.toNat
decreasing_by
  have h1 : (0:ℤ) < ⌈cross⌉ := Int.ceil_pos.mpr h.2
  have h2 : ⌈cross - 1⌉ = ⌈cross⌉ - 1 := by
    rw [show cross - 1 = cross + (-1 : ℤ) by push_cast; ring, Int.ceil_add_int]
    omega
  simp only [h2]
  omega

/-- `calculateForPosition` in src/unnamed/part_001 (lines 667–759).
A `hub_type` that resolves to `null` is represented by `""` (both compare
unequal to every hub-type literal, and `""` cannot be an actual stored
value because `getMeta` maps `''` to the absent result).  The
`rimSpokeHoleOffset` entry of the steel `commonParams` is not modelled: the
imported `calculateSpokeLength` (part_006) never reads it.  The `nippleType`
of the Berd path is the hard-coded `"External"`, so the `'Internal'` branch
is dead code. -/
def calcPos1 (pf : String → Option ℝ) (recipe : BuildRecipe) (data : ComponentData)
    (position : String) : Result1 :=
  match recipe.components (position ++ "Rim"), recipe.components (position ++ "Hub"),
      recipe.components (position ++ "Spokes"), recipe.specSpokeCount position with
  | some rim, some hub, some spokes, some (n + 1) =>
    let spokeCount : ℕ := n + 1
    let hubType : String :=
      (getMetaStr data hub.variantId hub.productId "hub_type").getD ""
    if spokes.vendor = "Berd" then
      let finalErd :=
        getMetaNum pf data rim.variantId rim.productId "rim_erd" 0 +
          2 * getMetaNum pf data rim.variantId rim.productId
            "rim_nipple_washer_thickness_mm" 0
      let defaultCross : ℝ := if 28 ≤ spokeCount then 3 else 2
      let manual :=
        getMetaNum pf data hub.variantId hub.productId "hub_manual_cross_value" 0
      let crossL : ℝ := (jsTrunc (if manual = 0 then defaultCross else manual) : ℝ)
      let crossR : ℝ := (jsTrunc (if manual = 0 then defaultCross else manual) : ℝ)
      let shd :=
        getMetaNum pf data hub.variantId hub.productId "hub_spoke_hole_diameter" 0
      let flangeL :=
        getMetaNum pf data hub.variantId hub.productId "hub_flange_offset_left" 0
      let flangeR :=
        getMetaNum pf data hub.variantId hub.productId "hub_flange_offset_right" 0
      let metalLengthL := calculateSpokeLength
        ⟨true, hubType, crossL, (spokeCount : ℝ), finalErd,
          getMetaNum pf data hub.variantId hub.productId "hub_flange_diameter_left" 0,
          flangeL,
          getMetaNum pf data hub.variantId hub.productId "hub_sp_offset_spoke_hole_left" 0,
          shd⟩
      let metalLengthR := calculateSpokeLength
        ⟨false, hubType, crossR, (spokeCount : ℝ), finalErd,
          getMetaNum pf data hub.variantId hub.productId "hub_flange_diameter_right" 0,
          flangeR,
          getMetaNum pf data hub.variantId hub.productId "hub_sp_offset_spoke_hole_right" 0,
          shd⟩
      let berdContext : BerdContext := ⟨flangeL, flangeR, metalLengthL, metalLengthR⟩
      let finalBerdLengthL := calculateBerdFinalLength metalLengthL hubType true berdContext
      let finalBerdLengthR := calculateBerdFinalLength metalLengthR hubType false berdContext
      .success
        { crossPattern := .pair crossL crossR
          alert := some .berdApplied
          left := ⟨finalBerdLengthL, none, applyRounding finalBerdLengthL "Berd"⟩
          right := ⟨finalBerdLengthR, none, applyRounding finalBerdLengthR "Berd"⟩
          finalErd := finalErd
          targetTension :=
            getMetaNum pf data rim.variantId rim.productId "rim_target_tension_kgf" 120 }
    else
      if hubType = "Hook Flange" then .failure "Unsupported type (Hook Flange)."
      else
        let erd := getMetaNum pf data rim.variantId rim.productId "rim_erd" 0
        let finalErd :=
          if getMetaStr data rim.variantId rim.productId "rim_washer_policy" ≠
              some "Not Compatible" then
            erd + 2 * getMetaNum pf data rim.variantId rim.productId
              "rim_nipple_washer_thickness_mm" 0
          else erd
        let hubLacingPolicy :=
          getMetaStr data hub.variantId hub.productId "hub_lacing_policy"
        let hubManualCrossValue :=
          getMetaNum pf data hub.variantId hub.productId "hub_manual_cross_value" 0
        let initialCrossPattern : ℝ :=
          if hubLacingPolicy = some "Use Manual Override Field" ∧ 0 < hubManualCrossValue
          then hubManualCrossValue
          else if 28 ≤ spokeCount then 3 else 2
        let fb := fallbackLoop spokeCount initialCrossPattern initialCrossPattern none
        let shd :=
          getMetaNum pf data hub.variantId hub.productId "hub_spoke_hole_diameter" 0
        let lengthL := calculateSpokeLength
          ⟨true, hubType, fb.1, (spokeCount : ℝ), finalErd,
            getMetaNum pf data hub.variantId hub.productId "hub_flange_diameter_left" 0,
            getMetaNum pf data hub.variantId hub.productId "hub_flange_offset_left" 0,
            getMetaNum pf data hub.variantId hub.productId "hub_sp_offset_spoke_hole_left" 0,
            shd⟩
        let lengthR := calculateSpokeLength
          ⟨false, hubType, fb.1, (spokeCount : ℝ), finalErd,
            getMetaNum pf data hub.variantId hub.productId "hub_flange_diameter_right" 0,
            getMetaNum pf data hub.variantId hub.productId "hub_flange_offset_right" 0,
            getMetaNum pf data hub.variantId hub.productId "hub_sp_offset_spoke_hole_right" 0,
            shd⟩
        let tensionKgf :=
          getMetaNum pf data rim.variantId rim.productId "rim_target_tension_kgf" 120
        let a1 :=
          getMetaNum pf data spokes.variantId spokes.productId
            "spoke_cross_sectional_area_mm2" 0
        let crossArea :=
          if a1 = 0 then
            getMetaNum pf data spokes.variantId spokes.productId
              "spoke_cross_section_area_mm2" 0
          else a1
        .success
          { crossPattern := .scalar fb.1
            alert := fb.2
            left := ⟨lengthL, some (calculateElongation lengthL tensionKgf crossArea),
              applyRounding lengthL "Steel"⟩
            right := ⟨lengthR, some (calculateElongation lengthR tensionKgf crossArea),
              applyRounding lengthR "Steel"⟩
            finalErd := finalErd
            targetTension := tensionKgf }
  | _, _, _, _ => .failure s!"Skipping {position} wheel: Missing component."

/-- A build report `{front, rear, errors}`. -/
structure Report1 where
  front : Option Result1
  rear : Option Result1
  errors : List String

/-- `runCalculationEngine` in src/unnamed/part_001 (lines 653–768).  The
`try/catch` is dead in this revision: the imported part_006 calculator never
throws, so `errors` is always empty. -/
def runEngine1 (pf : String → Option ℝ) (recipe : BuildRecipe)
    (data : ComponentData) : Report1 :=
  let front := calcPos1 pf recipe data "front"
  if recipe.buildType = "Wheel Set" then
    { front := some front, rear := some (calcPos1 pf recipe data "rear"), errors := [] }
  else
    { front := some front, rear := none, errors := [] }

/-! ## `runCalculationEngine`, revision src/unnamed/part_002 ("V4") -/

/-- Structured stand-ins for the failure messages of src/unnamed/part_002:
`"Skipping ${position} wheel: Missing component."`, the two
customer-supplies-own-component skips, and
`"Lacing pattern ${crossL}/${crossR} is not geometrically possible."`. -/
inductive Err2
  | missingComponent (position : String)
  | ownHub (position : String)
  | ownRim (position : String)
  | lacingImpossible (crossL crossR : ℝ)

/-- Stand-in for the part_002 alert
`"Hub policy override applied. Using ${manualCrossOverride}-cross."`. -/
inductive Alert2
  | overrideApplied (c : ℝ)

/-- Successful wheel result of src/unnamed/part_002 (selected fields; the
echoed `inputs` block is represented by `finalErd` and `targetTension`). -/
structure Success2 where
  crossPattern : CrossPat
  alert : Option Alert2
  left : Side1
  right : Side1
  finalErd : ℝ
  targetTension : ℝ

/-- A part_002 wheel result. -/
inductive Result2
  | failure (e : Err2)
  | success (s : Success2)

/-- JavaScript `String.prototype.includes`. -/
def jsIncludes (s sub : String) : Prop := sub.toList <:+: s.toList

/-- The caller-side rim-asymmetry adjustment of src/unnamed/part_002
(lines 490–497): the front position gets `(raw + r, raw − r)`, any other
position (rear) gets `(raw − r, raw + r)`. -/
def effectiveFlanges (position : String) (rawFlangeL rawFlangeR rimAsymmetry : ℝ) :
    ℝ × ℝ :=
  if position = "front" then (rawFlangeL + rimAsymmetry, rawFlangeR - rimAsymmetry)
  else (rawFlangeL - rimAsymmetry, rawFlangeR + rimAsymmetry)

/-- `calculateForPosition` in src/unnamed/part_002 (lines 433–554).  As in
`calcPos1`, a `null` hub type is represented by `""` where it is compared
with hub-type literals.  The right-hand Berd spoke-hole-diameter lookup
uses the *rim* ids — that slip is in the source (line 505). -/
def calcPos2 (pf : String → Option ℝ) (recipe : BuildRecipe) (data : ComponentData)
    (position : String) : Result2 :=
  match recipe.components (position ++ "Rim"), recipe.components (position ++ "Hub"),
      recipe.components (position ++ "Spokes"), recipe.specSpokeCount position with
  | some rim, some hub, some spokes, some (n + 1) =>
    let spokeCount : ℕ := n + 1
    if jsIncludes hub.title "Your Own" then .failure (.ownHub position)
    else if jsIncludes rim.title "Your Own" then .failure (.ownRim position)
    else
      let hubLacingPolicy :=
        getMetaStr data hub.variantId hub.productId "hub_lacing_policy"
      let manualCrossOverride :=
        getMetaNum pf data hub.variantId hub.productId "hub_manual_cross_value" 0
      let override :=
        hubLacingPolicy = some "Use Manual Override Field" ∧ 0 < manualCrossOverride
      let lacingAlert : Option Alert2 :=
        if override then some (.overrideApplied manualCrossOverride) else none
      let defaultCross : ℝ := if 28 ≤ spokeCount then 3 else 2
      let crossL : ℝ := if override then manualCrossOverride else defaultCross
      let crossR : ℝ := if override then manualCrossOverride else defaultCross
      let hubType : String :=
        (getMetaStr data hub.variantId hub.productId "hub_type").getD ""
      let rimAsymmetry :=
        getMetaNum pf data rim.variantId rim.productId "rim_spoke_hole_offset" 0
      let rawFlangeL :=
        getMetaNum pf data hub.variantId hub.productId "hub_flange_offset_left" 0
      let rawFlangeR :=
        getMetaNum pf data hub.variantId hub.productId "hub_flange_offset_right" 0
      let eff := effectiveFlanges position rawFlangeL rawFlangeR rimAsymmetry
      if spokes.vendor = "Berd" then
        let baseErd := getMetaNum pf data rim.variantId rim.productId "rim_erd" 0
        let washerThickness :=
          getMetaNum pf data rim.variantId rim.productId "nipple_washer_thickness" 0
        let finalErd := baseErd + 2 * washerThickness
        let metalLengthL := calculateSpokeLength
          ⟨true, hubType, crossL, (spokeCount : ℝ), finalErd,
            getMetaNum pf data hub.variantId hub.productId "hub_flange_diameter_left" 0,
            eff.1,
            getMetaNum pf data hub.variantId hub.productId "hub_sp_offset_spoke_hole_left" 0,
            getMetaNum pf data hub.variantId hub.productId "hub_spoke_hole_diameter" 2.6⟩
        let metalLengthR := calculateSpokeLength
          ⟨false, hubType, crossR, (spokeCount : ℝ), finalErd,
            getMetaNum pf data hub.variantId hub.productId "hub_flange_diameter_right" 0,
            eff.2,
            getMetaNum pf data hub.variantId hub.productId "hub_sp_offset_spoke_hole_right" 0,
            getMetaNum pf data rim.variantId rim.productId "hub_spoke_hole_diameter" 2.6⟩
        let berdContext : BerdContext := ⟨eff.1, eff.2, metalLengthL, metalLengthR⟩
        let finalBerdLengthL :=
          calculateBerdFinalLength metalLengthL hubType true berdContext
        let finalBerdLengthR :=
          calculateBerdFinalLength metalLengthR hubType false berdContext
        .success
          { crossPattern := .pair crossL crossR
            alert := lacingAlert
            left := ⟨finalBerdLengthL, none, applyRounding finalBerdLengthL "Berd"⟩
            right := ⟨finalBerdLengthR, none, applyRounding finalBerdLengthR "Berd"⟩
            finalErd := finalErd
            targetTension :=
              getMetaNum pf data rim.variantId rim.productId "rim_target_tension_kgf" 120 }
      else
        let erd := getMetaNum pf data rim.variantId rim.productId "rim_erd" 0
        let washerPolicy := getMetaStr data rim.variantId rim.productId "rim_washer_policy"
        let washerThickness :=
          getMetaNum pf data rim.variantId rim.productId "nipple_washer_thickness" 0
        let finalErd :=
          if washerPolicy ≠ some "Not Compatible" then erd + 2 * washerThickness else erd
        if ¬ isLacingPossible (spokeCount : ℝ) crossL ∨
            ¬ isLacingPossible (spokeCount : ℝ) crossR then
          .failure (.lacingImpossible crossL crossR)
        else
          let shd :=
            getMetaNum pf data hub.variantId hub.productId "hub_spoke_hole_diameter" 2.6
          let lengthL := calculateSpokeLength
            ⟨true, hubType, crossL, (spokeCount : ℝ), finalErd,
              getMetaNum pf data hub.variantId hub.productId "hub_flange_diameter_left" 0,
              eff.1,
              getMetaNum pf data hub.variantId hub.productId "hub_sp_offset_spoke_hole_left" 0,
              shd⟩
          let lengthR := calculateSpokeLength
            ⟨false, hubType, crossR, (spokeCount : ℝ), finalErd,
              getMetaNum pf data hub.variantId hub.productId "hub_flange_diameter_right" 0,
              eff.2,
              getMetaNum pf data hub.variantId hub.productId "hub_sp_offset_spoke_hole_right" 0,
              shd⟩
          let tensionKgf :=
            getMetaNum pf data rim.variantId rim.productId "rim_target_tension_kgf" 120
          let crossArea :=
            getMetaNum pf data spokes.variantId spokes.productId
              "spoke_cross_section_area_mm2" 0
          .success
            { crossPattern := .pair crossL crossR
              alert := lacingAlert
              left := ⟨lengthL, some (calculateElongation lengthL tensionKgf crossArea),
                applyRounding lengthL "Steel"⟩
              right := ⟨lengthR, some (calculateElongation lengthR tensionKgf crossArea),
                applyRounding lengthR "Steel"⟩
              finalErd := finalErd
              targetTension := tensionKgf }
  | _, _, _, _ => .failure (.missingComponent position)

/-- A part_002 build report.  The unknown-`buildType` message
`"Unknown buildType: ..."` is the only string ever pushed to `errors` (the
`try/catch` is dead: the imported part_006 calculator never throws). -/
structure Report2 where
  front : Option Result2
  rear : Option Result2
  errors : List String

/-- `runCalculationEngine` in src/unnamed/part_002 (lines 416–572). -/
def runEngine2 (pf : String → Option ℝ) (recipe : BuildRecipe)
    (data : ComponentData) : Report2 :=
  if recipe.buildType = "Front" then
    { front := some (calcPos2 pf recipe data "front"), rear := none, errors := [] }
  else if recipe.buildType = "Rear" then
    { front := none, rear := some (calcPos2 pf recipe data "rear"), errors := [] }
  else if recipe.buildType = "Wheel Set" then
    { front := some (calcPos2 pf recipe data "front"),
      rear := some (calcPos2 pf recipe data "rear"), errors := [] }
  else
    { front := none, rear := none,
      errors := ["Unknown buildType: " ++ recipe.buildType] }

/-! ## Engine revision src/api/index.js -/

/-- JavaScript numbers in the api/index.js revision, where `NaN` is
observable: `none` is `NaN` (or `undefined`), `some x` a finite number.
(Infinities are outside the model; the claims settled against this
revision keep divisors away from zero.) -/
abbrev JsNum := Option ℝ

/-- NaN-propagating addition. -/
def jadd (a b : JsNum) : JsNum := do pure ((← a) + (← b))

/-- NaN-propagating subtraction. -/
def jsub (a b : JsNum) : JsNum := do pure ((← a) - (← b))

/-- NaN-propagating multiplication. -/
def jmul (a b : JsNum) : JsNum := do pure ((← a) * (← b))

/-- NaN-propagating division. -/
def jdiv (a b : JsNum) : JsNum := do pure ((← a) / (← b))

/-- NaN-propagating negation. -/
def jneg (a : JsNum) : JsNum := do pure (-(← a))

/-- NaN-propagating `Math.pow(·, 2)`. -/
def jpow2 (a : JsNum) : JsNum := do pure ((← a) ^ 2)

/-- `Math.sqrt` (idealised: `Real.sqrt` is total). -/
def jsqrt (a : JsNum) : JsNum := do pure (Real.sqrt (← a))

/-- `Math.cos`. -/
def jcos (a : JsNum) : JsNum := do pure (Real.cos (← a))

/-- JavaScript `> 0` — false when the operand is `NaN`. -/
def jsGtZero (a : JsNum) : Prop := ∃ x, a = some x ∧ 0 < x

/-- Parameter record for `calculateSpokeLength` in src/api/index.js. -/
structure ApiSpokeParams where
  isLeft : Bool
  hubType : String
  baseCrossPattern : JsNum
  spokeCount : JsNum
  finalErd : JsNum
  hubFlangeDiameter : JsNum
  flangeOffset : JsNum
  rimSpokeHoleOffset : JsNum
  spOffset : JsNum
  hubSpokeHoleDiameter : JsNum

/-- `calculateSpokeLength` in src/api/index.js (lines 77–100): applies
`rimSpokeHoleOffset` internally (minus on the left side, plus on the
right); for a Classic Flange hub it throws
`"Missing Hub Spoke Hole Diameter for Classic hub."` when
`isNaN(hubSpokeHoleDiameter)`; every non-Classic hub adds `spOffset`. -/
def calculateSpokeLengthApi (p : ApiSpokeParams) : Except String JsNum :=
  let hubRadius := jdiv p.hubFlangeDiameter (some 2)
  let rimRadius := jdiv p.finalErd (some 2)
  let effectiveCrossPattern :=
    if p.hubType = "Straight Pull" ∧ jsGtZero p.baseCrossPattern then
      jadd p.baseCrossPattern (some 0.5)
    else p.baseCrossPattern
  let angle :=
    jdiv (jmul (some (2 * Real.pi)) effectiveCrossPattern) (jdiv p.spokeCount (some 2))
  let finalZOffset :=
    jadd p.flangeOffset
      (if p.isLeft then jneg p.rimSpokeHoleOffset else p.rimSpokeHoleOffset)
  let term1 := jpow2 finalZOffset
  let term2 := jpow2 hubRadius
  let term3 := jpow2 rimRadius
  let term4 := jmul (jmul (jmul (some 2) hubRadius) rimRadius) (jcos angle)
  let geometricLength := jsqrt (jsub (jadd (jadd term1 term2) term3) term4)
  if p.hubType = "Classic Flange" then
    if p.hubSpokeHoleDiameter = none then
      .error "Missing Hub Spoke Hole Diameter for Classic hub."
    else .ok (jsub geometricLength (jdiv p.hubSpokeHoleDiameter (some 2)))
  else
    .ok (jadd geometricLength p.spOffset)

/-- `calculateElongation` in src/api/index.js (lines 68–75) over NaN-capable
numbers: the `!crossSectionalArea` guard catches both `NaN` and `0`. -/
def calculateElongationApi (spokeLength tensionKgf crossSectionalArea : JsNum) : JsNum :=
  if crossSectionalArea = none ∨ crossSectionalArea = some 0 then some 0
  else
    let tensionN := jmul tensionKgf (some 9.80665)
    let modulusPa : JsNum := some ((210 : ℝ) * 1e9)
    let elongationMeters :=
      jdiv (jmul tensionN (jdiv spokeLength (some 1000)))
        (jmul modulusPa (jdiv crossSectionalArea (some 1e6)))
    jmul elongationMeters (some 1000)

/-- One side's `{geo, stretch}` in the api/index.js result. -/
structure SideApi where
  geo : JsNum
  stretch : JsNum

/-- An api/index.js wheel result: `{error}` or `{left, right}`. -/
inductive ResultApi
  | failure (error : String)
  | success (left right : SideApi)

/-- `calculateForPosition` in src/api/index.js (lines 112–137); a thrown
exception surfaces as `Except.error` (JavaScript evaluates the left side
first, so a left-side throw pre-empts the right side). -/
def calcPosApi (pf : String → Option ℝ) (recipe : BuildRecipe) (data : ComponentData)
    (position : String) : Except String ResultApi :=
  match recipe.components (position ++ "Rim"), recipe.components (position ++ "Hub"),
      recipe.components (position ++ "Spokes"), recipe.specSpokeCount position with
  | some rim, some hub, some spokes, some (n + 1) =>
    let spokeCount : ℕ := n + 1
    let hubType := getMetaStr data hub.variantId hub.productId "hub_type"
    if hubType = some "Hook Flange" ∨
        getMetaStr data spokes.variantId spokes.productId "spoke_type" = some "BERD" then
      .ok (.failure ("Unsupported type (" ++ hubType.getD "BERD" ++ ")."))
    else
      let erd := getMetaApiNum pf data rim.variantId rim.productId "rim_erd" 0
      let finalErd :=
        if getMetaStr data rim.variantId rim.productId "rim_washer_policy" ≠
            some "Not Compatible" then
          jadd erd (jmul (some 2)
            (getMetaApiNum pf data rim.variantId rim.productId
              "rim_nipple_washer_thickness_mm" 0))
        else erd
      let hubLacingPolicy :=
        getMetaStr data hub.variantId hub.productId "hub_lacing_policy"
      let hubManualCrossValue :=
        getMetaApiNum pf data hub.variantId hub.productId "hub_manual_cross_value" 0
      let baseCrossPattern : JsNum :=
        if hubLacingPolicy = some "Use Manual Override Field" ∧
            jsGtZero hubManualCrossValue then
          hubManualCrossValue
        else some (if 32 ≤ spokeCount then 3 else 2)
      let rimOff :=
        getMetaApiNum pf data rim.variantId rim.productId "rim_spoke_hole_offset" 0
      let shd :=
        getMetaApiNum pf data hub.variantId hub.productId "hub_spoke_hole_diameter" 0
      let paramsLeft : ApiSpokeParams :=
        ⟨true, hubType.getD "", baseCrossPattern, some (spokeCount : ℝ), finalErd,
          getMetaApiNum pf data hub.variantId hub.productId "hub_flange_diameter_left" 0,
          getMetaApiNum pf data hub.variantId hub.productId "hub_flange_offset_left" 0,
          rimOff,
          getMetaApiNum pf data hub.variantId hub.productId "hub_sp_offset_spoke_hole_left" 0,
          shd⟩
      let paramsRight : ApiSpokeParams :=
        ⟨false, hubType.getD "", baseCrossPattern, some (spokeCount : ℝ), finalErd,
          getMetaApiNum pf data hub.variantId hub.productId "hub_flange_diameter_right" 0,
          getMetaApiNum pf data hub.variantId hub.productId "hub_flange_offset_right" 0,
          rimOff,
          getMetaApiNum pf data hub.variantId hub.productId "hub_sp_offset_spoke_hole_right" 0,
          shd⟩
      match calculateSpokeLengthApi paramsLeft, calculateSpokeLengthApi paramsRight with
      | .ok lengthL, .ok lengthR =>
        let tensionKgf :=
          getMetaApiNum pf data rim.variantId rim.productId "rim_target_tension_kgf" 120
        let a1 :=
          getMetaApiNum pf data spokes.variantId spokes.productId
            "spoke_cross_sectional_area_mm2" 0
        let crossArea :=
          if a1 = none ∨ a1 = some 0 then
            getMetaApiNum pf data spokes.variantId spokes.productId
              "spoke_cross_section_area_mm2" 0
          else a1
        .ok (.success ⟨lengthL, calculateElongationApi lengthL tensionKgf crossArea⟩
          ⟨lengthR, calculateElongationApi lengthR tensionKgf crossArea⟩)
      | .error e, _ => .error e
      | _, .error e => .error e
  | _, _, _, _ => .ok (.failure ("Skipping " ++ position ++ " wheel: Missing component."))

/-- An api/index.js build report. -/
structure ReportApi where
  front : Option ResultApi
  rear : Option ResultApi
  errors : List String

/-- `runCalculationEngine` in src/api/index.js (lines 102–145): the
`try/catch` around both positions records a thrown message in `errors`;
a front-side throw leaves `front` null and skips the rear entirely. -/
def runEngineApi (pf : String → Option ℝ) (recipe : BuildRecipe)
    (data : ComponentData) : ReportApi :=
  match calcPosApi pf recipe data "front" with
  | .error e => { front := none, rear := none, errors := [e] }
  | .ok f =>
    if recipe.buildType = "Wheel Set" then
      match calcPosApi pf recipe data "rear" with
      | .error e => { front := some f, rear := none, errors := [e] }
      | .ok r => { front := some f, rear := some r, errors := [] }
    else { front := some f, rear := none, errors := [] }

/-! ## The cross-pattern fallback loop (claim C5) -/

/-- The loop exits immediately on a lacing-possible pattern. -/
theorem fallbackLoop_eq_of_possible (sc : ℕ) (init cross : ℝ) (a : Option Alert1)
    (h : isLacingPossible (sc : ℝ) cross) :
    fallbackLoop sc init cross a = (cross, a) := by
  rw [fallbackLoop]
  simp [h]

/-- Characterisation of the fallback loop on a natural starting pattern
`k`: it returns the largest lacing-possible `j ≤ k`, with the alert left
untouched when no fallback happened and recording `(initial, j)` when it
did. -/
theorem fallbackLoop_nat_spec (sc : ℕ) (init : ℝ) (k : ℕ) (a : Option Alert1) :
    ∃ j : ℕ, j ≤ k ∧ isLacingPossible (sc : ℝ) (j : ℝ) ∧
      (∀ m : ℕ, m ≤ k → isLacingPossible (sc : ℝ) (m : ℝ) → m ≤ j) ∧
      fallbackLoop sc init (k : ℝ) a =
        ((j : ℝ), if j = k then a else some (Alert1.interference init (j : ℝ))) := by
  induction k generalizing a with
  | zero =>
    refine ⟨0, le_refl 0, Or.inl (by norm_num), fun m hm _ => hm, ?_⟩
    rw [fallbackLoop_eq_of_possible sc init _ a (Or.inl (by norm_num))]
    simp
  | succ k ih =>
    by_cases hp : isLacingPossible (sc : ℝ) ((k + 1 : ℕ) : ℝ)
    · refine ⟨k + 1, le_refl _, hp, fun m hm _ => hm, ?_⟩
      rw [fallbackLoop_eq_of_possible sc init _ a hp]
      simp
    · obtain ⟨j, hj1, hj2, hj3, hj4⟩ := ih (some (Alert1.interference init (k : ℝ)))
      refine ⟨j, hj1.trans (Nat.le_succ k), hj2, ?_, ?_⟩
      · intro m hm hmp
        rcases Nat.lt_or_ge m (k + 1) with h | h
        · exact hj3 m (Nat.lt_succ_iff.mp h) hmp
        · exact absurd hmp (by rw [le_antisymm hm h]; exact hp)
      · rw [fallbackLoop]
        rw [dif_pos ⟨hp, by positivity⟩]
        have hc : ((k + 1 : ℕ) : ℝ) - 1 = (k : ℝ) := by push_cast; ring
        rw [hc, hj4]
        have hjk : j ≠ k + 1 := fun hEq => hp (hEq ▸ hj2)
        by_cases hjk2 : j = k
        · subst hjk2
          simp [hjk]
        · simp [hjk, hjk2]

/-- **C5 (amended).**  In the src/unnamed/part_001 revision, when the steel
path's initially selected cross pattern is the natural number `k`, the
engine decrements it by 1 and retests down to 0, so the returned result's
cross pattern is the largest `j ≤ k` with `isLacingPossible` true, and a
fallback alert naming the original pattern and the final pattern (but not
the failing angle, which the source message omits) is attached exactly
when the final pattern differs from the initial one.  (The
src/unnamed/part_002 revision instead fails outright without decrementing —
see the counterexample.) -/
theorem calcPos1_cross_fallback (pf : String → Option ℝ) (recipe : BuildRecipe)
    (data : ComponentData) (position : String) (rim hub spokes : Component) (n k : ℕ)
    (hrim : recipe.components (position ++ "Rim") = some rim)
    (hhub : recipe.components (position ++ "Hub") = some hub)
    (hspk : recipe.components (position ++ "Spokes") = some spokes)
    (hn : recipe.specSpokeCount position = some (n + 1))
    (hvendor : spokes.vendor ≠ "Berd")
    (hhook : (getMetaStr data hub.variantId hub.productId "hub_type").getD "" ≠
      "Hook Flange")
    (hinit : (if getMetaStr data hub.variantId hub.productId "hub_lacing_policy" =
          some "Use Manual Override Field" ∧
          0 < getMetaNum pf data hub.variantId hub.productId "hub_manual_cross_value" 0
        then getMetaNum pf data hub.variantId hub.productId "hub_manual_cross_value" 0
        else if 28 ≤ n + 1 then 3 else 2) = (k : ℝ)) :
    ∃ j : ℕ, j ≤ k ∧ isLacingPossible ((n + 1 : ℕ) : ℝ) (j : ℝ) ∧
      (∀ m : ℕ, m ≤ k → isLacingPossible ((n + 1 : ℕ) : ℝ) (m : ℝ) → m ≤ j) ∧
      ∃ s : Success1, calcPos1 pf recipe data position = .success s ∧
        s.crossPattern = .scalar (j : ℝ) ∧
        s.alert = (if j = k then none
          else some (Alert1.interference (k : ℝ) (j : ℝ))) := by
  obtain ⟨j, hj1, hj2, hj3, hj4⟩ := fallbackLoop_nat_spec (n + 1) (k : ℝ) k none
  refine ⟨j, hj1, hj2, hj3, ?_⟩
  simp only [calcPos1, hrim, hhub, hspk, hn]
  rw [if_neg hvendor, if_neg hhook, hinit, hj4]
  refine ⟨_, rfl, rfl, ?_⟩
  by_cases hjk : j = k
  · simp [hjk]
  · simp [hjk]

/-! ## Concrete fixtures for engine-level counterexamples and witnesses -/

/-- Concrete parse function: maps the decimal strings appearing in the
concrete stores to their values, `NaN` elsewhere. -/
def cpf : String → Option ℝ := fun s =>
  if s = "5" then some 5
  else if s = "600" then some 600
  else if s = "58" then some 58
  else if s = "35" then some 35
  else if s = "21" then some 21
  else if s = "0.5" then some 0.5
  else if s = "2.6" then some 2.6
  else none

/-- A concrete rim component. -/
def rimC : Component := ⟨"rimV", "rimP", "Test Rim", "LoamLabs", []⟩

/-- A concrete hub component. -/
def hubC : Component := ⟨"hubV", "hubP", "Test Hub", "LoamLabs", []⟩

/-- A concrete steel-spoke component (vendor is not `"Berd"`). -/
def steelSpokesC : Component := ⟨"spkV", "spkP", "Test Spokes", "Sapim", []⟩

/-- A concrete Berd-spoke component. -/
def berdSpokesC : Component := ⟨"bspkV", "bspkP", "Berd Spokes", "Berd", []⟩

/-- A front-wheel build recipe with steel spokes and a 32h spoke count. -/
def steelRecipe : BuildRecipe :=
  ⟨"Front",
    fun key =>
      if key = "frontRim" then some rimC
      else if key = "frontHub" then some hubC
      else if key = "frontSpokes" then some steelSpokesC
      else none,
    fun pos => if pos = "front" then some 32 else none⟩

/-- The same recipe with Berd spokes. -/
def berdRecipe : BuildRecipe :=
  ⟨"Front",
    fun key =>
      if key = "frontRim" then some rimC
      else if key = "frontHub" then some hubC
      else if key = "frontSpokes" then some berdSpokesC
      else none,
    fun pos => if pos = "front" then some 32 else none⟩

/-- Store for C5: a manual 5-cross override on a Classic Flange hub. -/
def c5Store : ComponentData := fun id =>
  if id = "hubV" then some (fun k =>
    if k = "hub_lacing_policy" then some "Use Manual Override Field"
    else if k = "hub_manual_cross_value" then some "5"
    else if k = "hub_type" then some "Classic Flange"
    else none)
  else if id = "rimV" then some (fun k =>
    if k = "rim_erd" then some "600" else none)
  else none

/-- **C5 counterexample.**  The claim says that for every steel-spoke
position calculation the engine decrements an infeasible cross pattern and
returns a result carrying the largest feasible pattern.  The
src/unnamed/part_002 revision does not: with a manual 5-cross override on
32 spokes (largest feasible pattern 3) it returns a
`calculationSuccessful:false` failure without decrementing. -/
theorem calcPos2_no_cross_fallback :
    calcPos2 cpf steelRecipe c5Store "front" =
      .failure (.lacingImpossible 5 5) := by
  have h1 : steelRecipe.components ("front" ++ "Rim") = some rimC := rfl
  have h2 : steelRecipe.components ("front" ++ "Hub") = some hubC := rfl
  have h3 : steelRecipe.components ("front" ++ "Spokes") = some steelSpokesC := rfl
  have h4 : steelRecipe.specSpokeCount "front" = some (31 + 1) := rfl
  have hpol : getMetaStr c5Store hubC.variantId hubC.productId "hub_lacing_policy" =
      some "Use Manual Override Field" := rfl
  have hman : getMetaNum cpf c5Store hubC.variantId hubC.productId
      "hub_manual_cross_value" 0 = 5 := rfl
  have hnotYourOwnHub : ¬ jsIncludes hubC.title "Your Own" := by
    simp only [jsIncludes, hubC]
    decide
  have hnotYourOwnRim : ¬ jsIncludes rimC.title "Your Own" := by
    simp only [jsIncludes, rimC]
    decide
  simp only [calcPos2, h1, h2, h3, h4]
  rw [if_neg hnotYourOwnHub, if_neg hnotYourOwnRim, hpol, hman]
  simp only [steelSpokesC]
  rw [if_neg (show ¬ ("Sapim" = "Berd") by decide)]
  norm_num [isLacingPossible]

/-- Witness for the amended C5: part_001 on the same manual 5-cross, 32h
steel build the part_002 revision rejects. -/
theorem calcPos1_cross_fallback_witness :
    steelRecipe.components ("front" ++ "Rim") = some rimC ∧
    steelRecipe.components ("front" ++ "Hub") = some hubC ∧
    steelRecipe.components ("front" ++ "Spokes") = some steelSpokesC ∧
    steelRecipe.specSpokeCount "front" = some (31 + 1) ∧
    steelSpokesC.vendor ≠ "Berd" ∧
    (getMetaStr c5Store hubC.variantId hubC.productId "hub_type").getD "" ≠
      "Hook Flange" ∧
    (∃ j : ℕ, j ≤ 5 ∧ isLacingPossible ((31 + 1 : ℕ) : ℝ) (j : ℝ) ∧
      (∀ m : ℕ, m ≤ 5 → isLacingPossible ((31 + 1 : ℕ) : ℝ) (m : ℝ) → m ≤ j) ∧
      ∃ s : Success1, calcPos1 cpf steelRecipe c5Store "front" = .success s ∧
        s.crossPattern = .scalar (j : ℝ) ∧
        s.alert = (if j = 5 then none
          else some (Alert1.interference ((5 : ℕ) : ℝ) (j : ℝ)))) := by
  refine ⟨rfl, rfl, rfl, rfl, by decide, by decide, ?_⟩
  refine calcPos1_cross_fallback cpf steelRecipe c5Store "front" rimC hubC
    steelSpokesC 31 5 rfl rfl rfl rfl (by decide) (by decide) ?_
  rw [show getMetaStr c5Store hubC.variantId hubC.productId "hub_lacing_policy" =
      some "Use Manual Override Field" from rfl,
    show getMetaNum cpf c5Store hubC.variantId hubC.productId
      "hub_manual_cross_value" 0 = 5 from rfl]
  norm_num

/-! ## Final-ERD computation (claim C6) -/

/-- Extract the echoed final ERD of a part_001 wheel result; this field
carries the same `finalErd` value that the engine passes to every
`calculateSpokeLength` call of that position. -/
def result1FinalErd : Result1 → Option ℝ
  | .failure _ => none
  | .success s => some s.finalErd

/-- Store for C6: washer policy `Not Compatible` with a positive washer
thickness on the rim. -/
def c6Store : ComponentData := fun id =>
  if id = "rimV" then some (fun k =>
    if k = "rim_erd" then some "600"
    else if k = "rim_washer_policy" then some "Not Compatible"
    else if k = "rim_nipple_washer_thickness_mm" then some "0.5"
    else none)
  else if id = "hubV" then some (fun k =>
    if k = "hub_type" then some "Classic Flange" else none)
  else none

/-- **C6 counterexample.**  The claim says every position calculation uses
the base ERD unchanged when the rim's washer policy is `Not Compatible`.
The ElastomerCored (Berd) path of src/unnamed/part_001 (lines 683–687)
never consults the washer policy: with base ERD 600, washer thickness 0.5
and policy `Not Compatible`, the ERD it passes to the solver is 601. -/
theorem calcPos1_berd_ignores_washer_policy :
    getMetaStr c6Store rimC.variantId rimC.productId "rim_washer_policy" =
      some "Not Compatible" ∧
    getMetaNum cpf c6Store rimC.variantId rimC.productId "rim_erd" 0 = 600 ∧
    result1FinalErd (calcPos1 cpf berdRecipe c6Store "front") = some 601 ∧
    (601 : ℝ) ≠ 600 := by
  have h1 : berdRecipe.components ("front" ++ "Rim") = some rimC := rfl
  have h2 : berdRecipe.components ("front" ++ "Hub") = some hubC := rfl
  have h3 : berdRecipe.components ("front" ++ "Spokes") = some berdSpokesC := rfl
  have h4 : berdRecipe.specSpokeCount "front" = some (31 + 1) := rfl
  refine ⟨rfl, rfl, ?_, by norm_num⟩
  simp only [calcPos1, h1, h2, h3, h4]
  rw [if_pos (show berdSpokesC.vendor = "Berd" from rfl)]
  simp only [result1FinalErd]
  rw [show getMetaNum cpf c6Store rimC.variantId rimC.productId "rim_erd" 0 = 600 from rfl,
    show getMetaNum cpf c6Store rimC.variantId rimC.productId
      "rim_nipple_washer_thickness_mm" 0 = 0.5 from rfl]
  norm_num

/-- **C6 (amended).**  In src/unnamed/part_001, the steel path computes the
final ERD as base ERD + 2·washer thickness when the rim's washer policy is
not `Not Compatible` and leaves the base ERD unchanged when it is; the
ElastomerCored (Berd) path always adds 2·washer thickness, ignoring the
policy. -/
theorem calcPos1_finalErd (pf : String → Option ℝ) (recipe : BuildRecipe)
    (data : ComponentData) (position : String) (rim hub spokes : Component) (n : ℕ)
    (hrim : recipe.components (position ++ "Rim") = some rim)
    (hhub : recipe.components (position ++ "Hub") = some hub)
    (hspk : recipe.components (position ++ "Spokes") = some spokes)
    (hn : recipe.specSpokeCount position = some (n + 1)) :
    (spokes.vendor ≠ "Berd" →
      (getMetaStr data hub.variantId hub.productId "hub_type").getD "" ≠ "Hook Flange" →
      ∃ s : Success1, calcPos1 pf recipe data position = .success s ∧
        (getMetaStr data rim.variantId rim.productId "rim_washer_policy" ≠
            some "Not Compatible" →
          s.finalErd = getMetaNum pf data rim.variantId rim.productId "rim_erd" 0 +
            2 * getMetaNum pf data rim.variantId rim.productId
              "rim_nipple_washer_thickness_mm" 0) ∧
        (getMetaStr data rim.variantId rim.productId "rim_washer_policy" =
            some "Not Compatible" →
          s.finalErd = getMetaNum pf data rim.variantId rim.productId "rim_erd" 0)) ∧
    (spokes.vendor = "Berd" →
      ∃ s : Success1, calcPos1 pf recipe data position = .success s ∧
        s.finalErd = getMetaNum pf data rim.variantId rim.productId "rim_erd" 0 +
          2 * getMetaNum pf data rim.variantId rim.productId
            "rim_nipple_washer_thickness_mm" 0) := by
  constructor
  · intro hvendor hhook
    simp only [calcPos1, hrim, hhub, hspk, hn]
    rw [if_neg hvendor, if_neg hhook]
    refine ⟨_, rfl, fun hp => ?_, fun hp => ?_⟩
    · exact if_pos hp
    · exact if_neg (fun hC => hC hp)
  · intro hvendor
    simp only [calcPos1, hrim, hhub, hspk, hn]
    rw [if_pos hvendor]
    exact ⟨_, rfl, rfl⟩

/-- Witness for the amended C6 at the concrete `Not Compatible` store. -/
theorem calcPos1_finalErd_witness :
    berdRecipe.components ("front" ++ "Rim") = some rimC ∧
    berdRecipe.components ("front" ++ "Hub") = some hubC ∧
    berdRecipe.components ("front" ++ "Spokes") = some berdSpokesC ∧
    berdRecipe.specSpokeCount "front" = some (31 + 1) ∧
    ((berdSpokesC.vendor ≠ "Berd" →
      (getMetaStr c6Store hubC.variantId hubC.productId "hub_type").getD "" ≠
        "Hook Flange" →
      ∃ s : Success1, calcPos1 cpf berdRecipe c6Store "front" = .success s ∧
        (getMetaStr c6Store rimC.variantId rimC.productId "rim_washer_policy" ≠
            some "Not Compatible" →
          s.finalErd = getMetaNum cpf c6Store rimC.variantId rimC.productId "rim_erd" 0 +
            2 * getMetaNum cpf c6Store rimC.variantId rimC.productId
              "rim_nipple_washer_thickness_mm" 0) ∧
        (getMetaStr c6Store rimC.variantId rimC.productId "rim_washer_policy" =
            some "Not Compatible" →
          s.finalErd = getMetaNum cpf c6Store rimC.variantId rimC.productId "rim_erd" 0)) ∧
    (berdSpokesC.vendor = "Berd" →
      ∃ s : Success1, calcPos1 cpf berdRecipe c6Store "front" = .success s ∧
        s.finalErd = getMetaNum cpf c6Store rimC.variantId rimC.productId "rim_erd" 0 +
          2 * getMetaNum cpf c6Store rimC.variantId rimC.productId
            "rim_nipple_washer_thickness_mm" 0)) := by
  exact ⟨rfl, rfl, rfl, rfl,
    calcPos1_finalErd cpf berdRecipe c6Store "front" rimC hubC berdSpokesC 31
      rfl rfl rfl rfl⟩

/-! ## Berd path and lacing feasibility (claim C10) -/

/-- `parseInt` of a natural number is that number. -/
theorem jsTrunc_natCast (k : ℕ) : jsTrunc (k : ℝ) = (k : ℤ) := by
  simp [jsTrunc]

/-- **C10.**  For every build whose spoke vendor is `"Berd"` with all
components and a positive spoke count present, both engine revisions
(src/unnamed/part_001 and src/unnamed/part_002) return a
`calculationSuccessful:true` result carrying the manually overridden cross
pattern unchanged, even when that pattern fails `isLacingPossible` — the
Berd path never invokes the lacing feasibility check, unlike the steel
path. -/
theorem berd_success_despite_infeasible_lacing (pf : String → Option ℝ)
    (recipe : BuildRecipe) (data : ComponentData) (position : String)
    (rim hub spokes : Component) (n k : ℕ)
    (hrim : recipe.components (position ++ "Rim") = some rim)
    (hhub : recipe.components (position ++ "Hub") = some hub)
    (hspk : recipe.components (position ++ "Spokes") = some spokes)
    (hn : recipe.specSpokeCount position = some (n + 1))
    (hvendor : spokes.vendor = "Berd")
    (hk : 0 < k)
    (hpol : getMetaStr data hub.variantId hub.productId "hub_lacing_policy" =
      some "Use Manual Override Field")
    (hman : getMetaNum pf data hub.variantId hub.productId "hub_manual_cross_value" 0 =
      (k : ℝ))
    (hhubT : ¬ jsIncludes hub.title "Your Own")
    (hrimT : ¬ jsIncludes rim.title "Your Own")
    (hinf : ¬ isLacingPossible ((n + 1 : ℕ) : ℝ) (k : ℝ)) :
    (∃ s : Success1, calcPos1 pf recipe data position = .success s ∧
      s.crossPattern = .pair (k : ℝ) (k : ℝ)) ∧
    (∃ s : Success2, calcPos2 pf recipe data position = .success s ∧
      s.crossPattern = .pair (k : ℝ) (k : ℝ)) := by
  have hkR : (0 : ℝ) < (k : ℝ) := by exact_mod_cast hk
  constructor
  · simp only [calcPos1, hrim, hhub, hspk, hn]
    rw [if_pos hvendor, hman]
    refine ⟨_, rfl, ?_⟩
    rw [if_neg (by exact_mod_cast hk.ne')]
    rw [jsTrunc_natCast]
    norm_num
  · simp only [calcPos2, hrim, hhub, hspk, hn]
    rw [if_neg hhubT, if_neg hrimT, hpol, hman]
    rw [if_pos hvendor]
    refine ⟨_, rfl, ?_⟩
    rw [if_pos ⟨rfl, hkR⟩]

/-- Witness for C10: a manual 5-cross override on a 32h Berd build
(5-cross is geometrically impossible on 32 holes). -/
theorem berd_success_despite_infeasible_lacing_witness :
    berdRecipe.components ("front" ++ "Rim") = some rimC ∧
    berdRecipe.components ("front" ++ "Hub") = some hubC ∧
    berdRecipe.components ("front" ++ "Spokes") = some berdSpokesC ∧
    berdRecipe.specSpokeCount "front" = some (31 + 1) ∧
    berdSpokesC.vendor = "Berd" ∧ 0 < 5 ∧
    getMetaStr c5Store hubC.variantId hubC.productId "hub_lacing_policy" =
      some "Use Manual Override Field" ∧
    getMetaNum cpf c5Store hubC.variantId hubC.productId "hub_manual_cross_value" 0 =
      ((5 : ℕ) : ℝ) ∧
    ¬ jsIncludes hubC.title "Your Own" ∧
    ¬ jsIncludes rimC.title "Your Own" ∧
    ¬ isLacingPossible ((31 + 1 : ℕ) : ℝ) ((5 : ℕ) : ℝ) ∧
    ((∃ s : Success1, calcPos1 cpf berdRecipe c5Store "front" = .success s ∧
      s.crossPattern = .pair ((5 : ℕ) : ℝ) ((5 : ℕ) : ℝ)) ∧
    (∃ s : Success2, calcPos2 cpf berdRecipe c5Store "front" = .success s ∧
      s.crossPattern = .pair ((5 : ℕ) : ℝ) ((5 : ℕ) : ℝ))) := by
  have hman : getMetaNum cpf c5Store hubC.variantId hubC.productId
      "hub_manual_cross_value" 0 = ((5 : ℕ) : ℝ) := by
    rw [show getMetaNum cpf c5Store hubC.variantId hubC.productId
      "hub_manual_cross_value" 0 = 5 from rfl]
    norm_num
  have hinf : ¬ isLacingPossible ((31 + 1 : ℕ) : ℝ) ((5 : ℕ) : ℝ) := by
    norm_num [isLacingPossible]
  have hhubT : ¬ jsIncludes hubC.title "Your Own" := by
    simp only [jsIncludes, hubC]; decide
  have hrimT : ¬ jsIncludes rimC.title "Your Own" := by
    simp only [jsIncludes, rimC]; decide
  refine ⟨rfl, rfl, rfl, rfl, rfl, by norm_num, rfl, hman, hhubT, hrimT, hinf, ?_⟩
  exact berd_success_despite_infeasible_lacing cpf berdRecipe c5Store "front"
    rimC hubC berdSpokesC 31 5 rfl rfl rfl rfl rfl (by norm_num) rfl hman hhubT hrimT hinf

/-! ## Missing spoke-hole diameter on Classic Flange (claim C7) -/

/-- The api/index.js solver throws on a Classic Flange hub whose spoke-hole
diameter is `NaN`/`undefined`. -/
theorem calculateSpokeLengthApi_classic_missing (q : ApiSpokeParams)
    (h1 : q.hubType = "Classic Flange") (h2 : q.hubSpokeHoleDiameter = none) :
    calculateSpokeLengthApi q =
      .error "Missing Hub Spoke Hole Diameter for Classic hub." := by
  simp [calculateSpokeLengthApi, h1, h2]

/-- Store for C7: a Classic Flange hub whose spoke-hole diameter is the
non-numeric string `"n/a"`. -/
def c7Store : ComponentData := fun id =>
  if id = "hubV" then some (fun k =>
    if k = "hub_type" then some "Classic Flange"
    else if k = "hub_spoke_hole_diameter" then some "n/a"
    else none)
  else if id = "rimV" then some (fun k =>
    if k = "rim_erd" then some "600" else none)
  else none

/-- **C7.**  For every Classic Flange invocation of the src/api/index.js
geometry solver with an absent/NaN spoke-hole diameter, the solver raises
the MissingParameter error (it returns no numeric length); the error is not
recovered inside the solver but propagates to `runCalculationEngine`'s
`try/catch`, which records it as a build-level error string in the report's
`errors` list (the position result stays null). -/
theorem classic_missing_shd_error (pf : String → Option ℝ) (recipe : BuildRecipe)
    (data : ComponentData) (rim hub spokes : Component) (n : ℕ)
    (hrim : recipe.components ("front" ++ "Rim") = some rim)
    (hhub : recipe.components ("front" ++ "Hub") = some hub)
    (hspk : recipe.components ("front" ++ "Spokes") = some spokes)
    (hn : recipe.specSpokeCount "front" = some (n + 1))
    (hhubtype : getMetaStr data hub.variantId hub.productId "hub_type" =
      some "Classic Flange")
    (hspktype : getMetaStr data spokes.variantId spokes.productId "spoke_type" ≠
      some "BERD")
    (hshd : getMetaApiNum pf data hub.variantId hub.productId
      "hub_spoke_hole_diameter" 0 = none) :
    (∀ q : ApiSpokeParams, q.hubType = "Classic Flange" →
      q.hubSpokeHoleDiameter = none →
      calculateSpokeLengthApi q =
        .error "Missing Hub Spoke Hole Diameter for Classic hub.") ∧
    calcPosApi pf recipe data "front" =
      .error "Missing Hub Spoke Hole Diameter for Classic hub." ∧
    runEngineApi pf recipe data =
      { front := none, rear := none,
        errors := ["Missing Hub Spoke Hole Diameter for Classic hub."] } := by
  have hcalc : calcPosApi pf recipe data "front" =
      .error "Missing Hub Spoke Hole Diameter for Classic hub." := by
    simp only [calcPosApi, hrim, hhub, hspk, hn]
    rw [if_neg (fun hOr => hOr.elim
      (fun h => by rw [hhubtype] at h; exact absurd h (by decide)) hspktype)]
    rw [calculateSpokeLengthApi_classic_missing _ (by rw [hhubtype]; rfl) hshd]
    split <;> simp_all
  refine ⟨fun q h1 h2 => calculateSpokeLengthApi_classic_missing q h1 h2, hcalc, ?_⟩
  simp only [runEngineApi, hcalc]

/-- Witness for C7: concrete store whose Classic Flange hub stores the
non-numeric spoke-hole diameter `"n/a"`. -/
theorem classic_missing_shd_error_witness :
    steelRecipe.components ("front" ++ "Rim") = some rimC ∧
    steelRecipe.components ("front" ++ "Hub") = some hubC ∧
    steelRecipe.components ("front" ++ "Spokes") = some steelSpokesC ∧
    steelRecipe.specSpokeCount "front" = some (31 + 1) ∧
    getMetaStr c7Store hubC.variantId hubC.productId "hub_type" =
      some "Classic Flange" ∧
    getMetaStr c7Store steelSpokesC.variantId steelSpokesC.productId "spoke_type" ≠
      some "BERD" ∧
    getMetaApiNum cpf c7Store hubC.variantId hubC.productId
      "hub_spoke_hole_diameter" 0 = none ∧
    (calcPosApi cpf steelRecipe c7Store "front" =
      .error "Missing Hub Spoke Hole Diameter for Classic hub." ∧
    runEngineApi cpf steelRecipe c7Store =
      { front := none, rear := none,
        errors := ["Missing Hub Spoke Hole Diameter for Classic hub."] }) := by
  refine ⟨rfl, rfl, rfl, rfl, rfl, by decide, rfl, ?_⟩
  exact (classic_missing_shd_error cpf steelRecipe c7Store rimC hubC steelSpokesC 31
    rfl rfl rfl rfl rfl (by decide) rfl).2

/-! ## Rim-asymmetry application, solver-internal vs caller-adjusted (claim C9) -/

/-- Solver-internal form at the front-left position: raw flange offset 35,
rim spoke-hole offset 1, radial lacing, Classic Flange. -/
def c9ApiParams : ApiSpokeParams :=
  ⟨true, "Classic Flange", some 0, some 32, some 600, some 58, some 35, some 1,
    some 0, some 2.6⟩

/-- Caller-adjusted form of the same front-left input: part_002 pre-adjusts
the flange offset (`front`: left + offset) and calls the part_006 solver,
in which `rimSpokeHoleOffset` is a no-op. -/
def c9CallerParams : SpokeParams :=
  ⟨true, "Classic Flange", 0, 32, 600, 58, (effectiveFlanges "front" 35 21 1).1,
    0, 2.6⟩

/-- **C9 counterexample.**  The claim says the solver-internal form (left:
`flangeOffset − rimSpokeHoleOffset`) and the caller-adjusted form (front:
left `+ offset`) produce the same left length.  For the front position they
do not: the internal form computes with 35 − 1 = 34, the caller-adjusted
form with 35 + 1 = 36, and the two lengths differ. -/
theorem asymmetry_forms_differ_front :
    (effectiveFlanges "front" 35 21 1).1 = 35 + 1 ∧
    calculateSpokeLengthApi c9ApiParams ≠
      .ok (some (calculateSpokeLength c9CallerParams)) := by
  have h1 : calculateSpokeLengthApi c9ApiParams =
      .ok (some (Real.sqrt 74597 - 1.3)) := by
    simp only [calculateSpokeLengthApi, c9ApiParams, jadd, jsub, jmul, jdiv, jneg,
      jpow2, jsqrt, jcos]
    norm_num [jsGtZero, Real.cos_zero]
    exact fun h => absurd h (by simp)
  have h2 : calculateSpokeLength c9CallerParams = Real.sqrt 74737 - 1.3 := by
    simp only [calculateSpokeLength, c9CallerParams, effectiveFlanges]
    norm_num [Real.cos_zero]
  refine ⟨by norm_num [effectiveFlanges], ?_⟩
  rw [h1, h2]
  simp only [ne_eq, Except.ok.injEq, Option.some.injEq]
  intro hEq
  have hlt : Real.sqrt 74597 < Real.sqrt 74737 :=
    Real.sqrt_lt_sqrt (by norm_num) (by norm_num)
  linarith

/-- **C9 (amended).**  For the rear position the two forms agree: on a
Classic Flange hub with finite inputs, the api/index.js solver applied to
the raw flange offsets (internal form: left `fo − r`, right `fo + r`)
returns exactly the part_006 solver's length at the part_002
caller-adjusted offsets (rear: left `− r`, right `+ r`); for the front
position the caller-adjusted form swaps the signs and the two forms
disagree in general (see the counterexample). -/
theorem asymmetry_forms_agree_rear (cross sc erd fd foL foR r spOff shd : ℝ) :
    effectiveFlanges "rear" foL foR r = (foL - r, foR + r) ∧
    calculateSpokeLengthApi
        ⟨true, "Classic Flange", some cross, some sc, some erd, some fd, some foL,
          some r, some spOff, some shd⟩ =
      .ok (some (calculateSpokeLength
        ⟨true, "Classic Flange", cross, sc, erd, fd,
          (effectiveFlanges "rear" foL foR r).1, spOff, shd⟩)) ∧
    calculateSpokeLengthApi
        ⟨false, "Classic Flange", some cross, some sc, some erd, some fd, some foR,
          some r, some spOff, some shd⟩ =
      .ok (some (calculateSpokeLength
        ⟨false, "Classic Flange", cross, sc, erd, fd,
          (effectiveFlanges "rear" foL foR r).2, spOff, shd⟩)) := by
  have he : effectiveFlanges "rear" foL foR r = (foL - r, foR + r) := by
    simp [effectiveFlanges]
  refine ⟨he, ?_, ?_⟩ <;>
    simp [calculateSpokeLengthApi, calculateSpokeLength, jadd, jsub, jmul, jdiv,
      jneg, jpow2, jsqrt, jcos, he, jsGtZero, sub_eq_add_neg]
